import Mathlib

/-!
Shallow embedding of two custodial value-holding programs:

* a Soroban fungible-balance ledger (src/stellar-soroban/src/lib.rs,
  contract FragileToken), and
* an Anchor deposit vault (src/solana-program/programs/vault/src/lib.rs,
  program vault).

Identities (Soroban Address, Solana Pubkey) are modelled as Nat.
Machine u64 values are modelled as Nat; additions that the Rust source
performs with the unchecked plus operator are taken modulo 2^64 (the
release-profile wrapping semantics; the repository ships no manifest
enabling overflow checks), while operations the source writes with
saturating_add / saturating_sub are modelled by clamping.  Fallible
entry points (Rust panics / Anchor errors) return Except.  Externally
observable effects (event publication, cross-program token transfers)
are returned as an ordered action trace alongside the result, so that
in-call ordering claims can be stated.
-/

/-- Modulus of unsigned 64-bit machine arithmetic. -/
def u64Mod : Nat := 2 ^ 64

/-- Point update of a total map, mirroring a key-value store write. -/
def upd {β : Type} (m : Nat → β) (k : Nat) (v : β) : Nat → β :=
  fun x => if x = k then v else m x

/-- The state the hosting transaction model commits: the new state on
success, the untouched pre-state on abort (all-or-nothing rollback). -/
def committed {ε σ : Type} (s : σ) (r : Except ε σ) : σ :=
  match r with
  | .ok s1 => s1
  | .error _ => s

/-- Boolean success test for a call result. -/
def exOk {ε σ : Type} : Except ε σ → Bool
  | .ok _ => true
  | .error _ => false

namespace FragileToken

/-- Contract identities (soroban_sdk::Address). -/
abbrev Addr := Nat

/-- Unsigned 64-bit values. -/
abbrev U64 := Nat

/-- Raw byte sequences (soroban_sdk::Bytes). -/
abbrev Bytes := List Nat

/-- A 32-byte digest (BytesN of size 32). -/
abbrev Hash := Nat

/-- Panic kinds of the contract, one per panic site. -/
inductive Err : Type
  | insufficient   -- transfer: "insufficient"
  | noAllow        -- transfer_from: "no allow"
  | notAdmin       -- mint: "not admin"
  | notOwner       -- set_admin: "not owner"
  | badSig         -- permit: "bad sig"
  | missingAddr    -- read_addr(..).unwrap() on absent Owner/Admin
  deriving DecidableEq, Repr

/-- Instance storage of the contract, one field per DataKey family
(Owner, Admin, TotalSupply, Balance(a), Allowance(o, s), Nonce(a));
absent entries are None, as in `storage().instance().get`. -/
structure State : Type where
  owner : Option Addr
  admin : Option Addr
  totalSupply : Option U64
  balances : Addr → Option U64
  allowances : Addr → Addr → Option U64
  nonces : Addr → Option U64

/-- The storage with every key absent. -/
def emptyState : State :=
  { owner := none, admin := none, totalSupply := none
    balances := fun _ => none, allowances := fun _ _ => none
    nonces := fun _ => none }

/-- read_u64: get the stored u64, defaulting to 0 (unwrap_or(0)). -/
def read_u64 (v : Option U64) : U64 := v.getD 0

/-- read_bal: balance lookup defaulting to 0. -/
def read_bal (s : State) (a : Addr) : U64 := (s.balances a).getD 0

/-- write_bal: store a balance. -/
def write_bal (s : State) (a : Addr) (v : U64) : State :=
  { s with balances := upd s.balances a (some v) }

/-- read_allow: allowance lookup defaulting to 0. -/
def read_allow (s : State) (o sp : Addr) : U64 := (s.allowances o sp).getD 0

/-- write_allow: store an allowance. -/
def write_allow (s : State) (o sp : Addr) (v : U64) : State :=
  { s with allowances := upd s.allowances o (upd (s.allowances o) sp (some v)) }

/-- total_supply entry point: stored supply defaulting to 0. -/
def total_supply (s : State) : U64 := read_u64 s.totalSupply

/-- balance_of entry point. -/
def balance_of (s : State) (who : Addr) : U64 := read_bal s who

/-- allowance entry point. -/
def allowance (s : State) (owner spender : Addr) : U64 := read_allow s owner spender

/-- The per-call host environment: the invoking identity (e.invoker())
and the optional transaction-source identity (e.tx_source_account()). -/
structure Env : Type where
  invoker : Addr
  txSource : Option Addr

/-- Externally observable actions of a ledger call, in execution order.
publishXfer is the event published by transfer; balCheck records the
evaluation of the balance comparison with the values it compared. -/
inductive TokAction : Type
  | publishXfer (src dst : Addr) (amount : U64)
  | balCheck (src : Addr) (bal amount : U64)
  deriving DecidableEq, Repr

/-- init: writes owner, admin, total supply and credits the whole
supply to the owner; no re-initialization guard. -/
def init (_e : Env) (s : State) (owner admin : Addr) (supply : U64) : State :=
  let s1 := { s with owner := some owner }
  let s2 := { s1 with admin := some admin }
  let s3 := { s2 with totalSupply := some supply }
  write_bal s3 owner supply

/-- approve: sets allowances[(owner, spender)] = amount; the
environment is consulted only for storage, never for authorization. -/
def approve (_e : Env) (s : State) (owner spender : Addr) (amount : U64) : State :=
  write_allow s owner spender amount

/-- transfer: publishes the xfer event, then checks the sender
balance, then moves the amount; the recipient-side addition is the
unchecked u64 plus, i.e. wrapping modulo 2^64. -/
def transfer (_e : Env) (s : State) (src dst : Addr) (amount : U64) :
    List TokAction × Except Err State :=
  let tr0 := [TokAction.publishXfer src dst amount]
  let src_bal := read_bal s src
  let tr1 := tr0 ++ [TokAction.balCheck src src_bal amount]
  if src_bal < amount then (tr1, .error .insufficient)
  else
    let s1 := write_bal s src (src_bal - amount)
    let dst_bal := read_bal s1 dst
    (tr1, .ok (write_bal s1 dst ((dst_bal + amount) % u64Mod)))

/-- transfer_from: when spender and owner differ, checks and decrements
the allowance, then delegates to transfer; when they coincide the
allowance is neither checked nor written. -/
def transfer_from (e : Env) (s : State) (spender owner dst : Addr) (amount : U64) :
    List TokAction × Except Err State :=
  let allow := read_allow s owner spender
  if spender ≠ owner then
    if allow < amount then ([], .error .noAllow)
    else transfer e (write_allow s owner spender (allow - amount)) owner dst amount
  else transfer e s owner dst amount

/-- mint: requires the stored admin to equal the invoker or the
transaction-source identity defaulted to the admin itself; then adds
the amount (wrapping) to the total supply and the recipient balance. -/
def mint (e : Env) (s : State) (dst : Addr) (amount : U64) : Except Err State :=
  match s.admin with
  | none => .error .missingAddr
  | some admin =>
    if !(admin == e.invoker) && !(admin == e.txSource.getD admin) then
      .error .notAdmin
    else
      let ts := read_u64 s.totalSupply
      let s1 := { s with totalSupply := some ((ts + amount) % u64Mod) }
      let bal := read_bal s1 dst
      .ok (write_bal s1 dst ((bal + amount) % u64Mod))

/-- set_admin: requires the stored owner to equal the invoker, or the
transaction-source identity to be present and equal the owner; then
overwrites the admin. -/
def set_admin (e : Env) (s : State) (new_admin : Addr) : Except Err State :=
  match s.owner with
  | none => .error .missingAddr
  | some owner =>
    if !((owner == e.invoker) || (e.txSource.map (fun a => a == owner)).getD false) then
      .error .notOwner
    else
      .ok { s with admin := some new_admin }

/-- The fixed domain tag of the permit payload. -/
def permitTag : String := "PERMIT"

/-- The canonical permit payload: fixed tag, owner, spender, amount and
the current nonce of the owner. -/
structure PermitPayload : Type where
  tag : String
  owner : Addr
  spender : Addr
  amount : U64
  nonce : U64

/-- permit: reads (but never writes) the nonce of the owner, hashes the
serialized canonical payload, verifies the signature against the owner
credential via the external primitives, and on success stores the
allowance.  serialize, sha256 and verify are the host collaborators. -/
def permit (serialize : PermitPayload → Bytes) (sha256 : Bytes → Hash)
    (verify : Addr → Hash → Bytes → Bool)
    (_e : Env) (s : State) (owner spender : Addr) (amount : U64) (sig : Bytes) :
    Except Err State :=
  let nonce := read_u64 (s.nonces owner)
  let payload : PermitPayload :=
    { tag := permitTag, owner := owner, spender := spender
      amount := amount, nonce := nonce }
  let msg_hash := sha256 (serialize payload)
  let res := verify owner msg_hash sig
  if res then .ok (write_allow s owner spender amount)
  else .error .badSig

end FragileToken

namespace Vault

/-- Solana public keys; Pubkey::default() is the all-zero key, 0. -/
abbrev Pubkey := Nat

/-- Unsigned 64-bit values. -/
abbrev U64 := Nat

/-- Failure kinds of a vault instruction: the program errors of the
VaultError enum, the Anchor account-constraint rejections that run
before a handler, and a failed token-program CPI. -/
inductive VErr : Type
  | badAmount            -- VaultError::BadAmount
  | notAdmin             -- VaultError::NotAdmin
  | constraintTokenMint  -- Deposit: constraint vault_token.mint == mint.key()
  | constraintHasOne     -- Deposit/Withdraw: has_one = mint on state
  | cpiFailed            -- token::transfer(..)? propagated an error
  deriving DecidableEq, Repr

/-- The two token accounts a vault CPI can move funds between. -/
inductive VAcct : Type
  | userToken
  | vaultToken
  deriving DecidableEq, Repr

/-- Externally observable actions of a vault instruction, in execution
order: a token-program transfer CPI (vaultSigned records whether it is
signed with the vault PDA authority) and the write that updates the
stored total_deposits counter. -/
inductive VAction : Type
  | cpiTransfer (src dst : VAcct) (amount : U64) (vaultSigned : Bool)
  | writeDeposits (v : U64)
  deriving DecidableEq, Repr

/-- The persisted vault account: admin, mint, total_deposits, bump. -/
structure VaultState : Type where
  admin : Pubkey
  mint : Pubkey
  total_deposits : U64
  bump : U64
  deriving DecidableEq, Repr

/-- A freshly created (Anchor init) account: all bytes zero, so every
field holds its default value. -/
def initState : VaultState :=
  { admin := 0, mint := 0, total_deposits := 0, bump := 0 }

/-- The initialize handler (named initVault here because initialize is
reserved in Lean): sets admin to the key of the signing admin account
and bump to the given salt; no other field of the state account is
written (and no freeze flag prevents re-invocation). -/
def initVault (s : VaultState) (adminKey : Pubkey) (bump : U64) : VaultState :=
  { s with admin := adminKey, bump := bump }

/-- deposit: after the Deposit account constraints (vault_token.mint
must equal the mint key, and the state has_one mint), requires a
nonzero amount, performs the user-signed token CPI into vault custody,
and on CPI success saturating-adds the amount to total_deposits.
vtMint is the mint recorded on the supplied vault token account and
cpiOk models the outcome of the external token program. -/
def deposit (s : VaultState) (mintKey vtMint : Pubkey) (cpiOk : Bool) (amount : U64) :
    List VAction × Except VErr VaultState :=
  if vtMint ≠ mintKey then ([], .error .constraintTokenMint)
  else if s.mint ≠ mintKey then ([], .error .constraintHasOne)
  else if amount = 0 then ([], .error .badAmount)
  else
    let act := VAction.cpiTransfer .userToken .vaultToken amount false
    if cpiOk then
      let td := min (s.total_deposits + amount) (u64Mod - 1)
      ([act, VAction.writeDeposits td], .ok { s with total_deposits := td })
    else ([act], .error .cpiFailed)

/-- withdraw: after the Withdraw account constraints (the state
has_one mint), requires a nonzero amount, performs the token CPI out
of vault custody signed with the vault PDA authority, and only after
the CPI saturating-subtracts the amount from total_deposits. -/
def withdraw (s : VaultState) (mintKey : Pubkey) (cpiOk : Bool) (amount : U64) :
    List VAction × Except VErr VaultState :=
  if s.mint ≠ mintKey then ([], .error .constraintHasOne)
  else if amount = 0 then ([], .error .badAmount)
  else
    let act := VAction.cpiTransfer .vaultToken .userToken amount true
    if cpiOk then
      let td := s.total_deposits - amount
      ([act, VAction.writeDeposits td], .ok { s with total_deposits := td })
    else ([act], .error .cpiFailed)

/-- set_admin: requires the fee-paying signer key to equal the stored
admin, then overwrites admin with the new key. -/
def set_admin (s : VaultState) (payer newAdmin : Pubkey) : Except VErr VaultState :=
  if payer = s.admin then .ok { s with admin := newAdmin }
  else .error .notAdmin

/-- exec: only logs the length of the opaque buffer; a placeholder
that neither reads nor writes any vault state. -/
def exec (s : VaultState) (_data : List U64) : Except VErr VaultState :=
  .ok s

end Vault

section TokenConcrete

open FragileToken

/-- An environment whose transaction-source identity is absent. -/
def envNone : Env := { invoker := 4, txSource := none }

/-- An environment with invoker 1 and no transaction source. -/
def envOne : Env := { invoker := 1, txSource := none }

/-- Ledger after init(owner = 0, admin = 1, supply = 1000). -/
def sInit : State := init envNone emptyState 0 1 1000

/-- Ledger after a third party (invoker 4) called approve(0, 2, 200). -/
def sApproved : State := approve envNone sInit 0 2 200

/-- A ledger whose account 1 already sits at the 64-bit ceiling while
account 0 holds 1 token. -/
def sCeiling : State := write_bal (write_bal emptyState 0 1) 1 (u64Mod - 1)

/-- A ledger with admin 0, owner 0 and total supply at the ceiling. -/
def sSupplyMax : State :=
  { emptyState with owner := some 0, admin := some 0, totalSupply := some (u64Mod - 1) }

/-- A ledger with owner 0 and admin 0 and nothing else stored. -/
def sOwned : State := { emptyState with owner := some 0, admin := some 0 }

/-- Trivial serializer standing in for serialize_to_bytes. -/
def trivSerialize : PermitPayload → Bytes := fun _ => []

/-- Trivial digest standing in for the host sha256. -/
def trivSha : Bytes → Hash := fun _ => 0

/-- A verifier that accepts every signature. -/
def acceptAll : Addr → Hash → Bytes → Bool := fun _ _ _ => true

end TokenConcrete

section VaultConcrete

/-- A vault with admin 9, the default mint, 100 custodied units. -/
def vFunded : Vault.VaultState :=
  { admin := 9, mint := 0, total_deposits := 100, bump := 7 }

/-- A vault whose stored mint, 1, differs from the supplied mint 0. -/
def vWrongMint : Vault.VaultState :=
  { admin := 0, mint := 1, total_deposits := 0, bump := 0 }

end VaultConcrete

section TokenLemmas

open FragileToken

/-- Reading back a freshly written allowance. -/
theorem read_allow_write_allow (s : State) (o sp : Addr) (v : U64) :
    read_allow (write_allow s o sp v) o sp = v := by
  simp [read_allow, write_allow, upd]

/-- transfer never touches the allowance map. -/
theorem transfer_allowances (e : Env) (s : State) (src dst : Addr) (a : U64) :
    (committed s (transfer e s src dst a).2).allowances = s.allowances := by
  by_cases h : read_bal s src < a <;>
    simp [transfer, committed, h, write_bal]

/-- transfer never touches the nonce map. -/
theorem transfer_nonces (e : Env) (s : State) (src dst : Addr) (a : U64) :
    (committed s (transfer e s src dst a).2).nonces = s.nonces := by
  by_cases h : read_bal s src < a <;>
    simp [transfer, committed, h, write_bal]

end TokenLemmas

section TokenClaims

open FragileToken

/-- Claim C1: a signature that verifies over the canonical permit
payload built from the fixed tag, owner, spender, amount and the
current nonce makes permit succeed, set the allowance to the amount
and leave the nonce map unchanged; the identical call immediately
afterwards succeeds again, with the nonce map still unchanged. -/
theorem c1_permit_replayable
    (serialize : PermitPayload → Bytes) (sha256 : Bytes → Hash)
    (verify : Addr → Hash → Bytes → Bool)
    (e : Env) (s : State) (owner spender : Addr) (amount : U64) (sig : Bytes)
    (hsig : verify owner (sha256 (serialize
      { tag := permitTag, owner := owner, spender := spender
        amount := amount, nonce := read_u64 (s.nonces owner) })) sig = true) :
    ∃ s1 s2,
      permit serialize sha256 verify e s owner spender amount sig = .ok s1 ∧
      allowance s1 owner spender = amount ∧
      s1.nonces = s.nonces ∧
      permit serialize sha256 verify e s1 owner spender amount sig = .ok s2 ∧
      allowance s2 owner spender = amount ∧
      s2.nonces = s.nonces := by
  refine ⟨write_allow s owner spender amount,
          write_allow (write_allow s owner spender amount) owner spender amount,
          ?_, ?_, rfl, ?_, ?_, rfl⟩
  · simp [permit, hsig]
  · simp [allowance, read_allow_write_allow]
  · have hsig1 : verify owner (sha256 (serialize
        { tag := permitTag, owner := owner, spender := spender
          amount := amount
          nonce := read_u64 ((write_allow s owner spender amount).nonces owner) })) sig
        = true := hsig
    simp [permit, hsig1]
  · simp [allowance, read_allow_write_allow]

/-- Witness for C1 at a concrete input: the all-accepting verifier on
the empty ledger, owner 0, spender 1, amount 500. -/
theorem c1_witness :
    (acceptAll 0 (trivSha (trivSerialize
      { tag := FragileToken.permitTag, owner := 0, spender := 1
        amount := 500, nonce := FragileToken.read_u64 (FragileToken.emptyState.nonces 0) })) []
      = true) ∧
    (∃ s1 s2,
      permit trivSerialize trivSha acceptAll envNone emptyState 0 1 500 [] = .ok s1 ∧
      allowance s1 0 1 = 500 ∧
      s1.nonces = emptyState.nonces ∧
      permit trivSerialize trivSha acceptAll envNone s1 0 1 500 [] = .ok s2 ∧
      allowance s2 0 1 = 500 ∧
      s2.nonces = emptyState.nonces) :=
  ⟨rfl, c1_permit_replayable trivSerialize trivSha acceptAll envNone emptyState 0 1 500 [] rfl⟩

/-- Claim C4: approve never consults the call environment, so any
caller succeeds in setting the allowance of any owner, and afterwards
the stored allowance equals the requested amount. -/
theorem c4_approve_unauthenticated (e1 e2 : Env) (s : State)
    (owner spender : Addr) (amount : U64) :
    approve e1 s owner spender amount = approve e2 s owner spender amount ∧
    allowance (approve e1 s owner spender amount) owner spender = amount :=
  ⟨rfl, by simp [allowance, approve, read_allow_write_allow]⟩

end TokenClaims

section TokenClaims2

open FragileToken

/-- Claim C2 (amended): mint is authorized iff the stored admin equals
the invoker or equals the transaction-source identity defaulted to the
admin itself, so with the transaction source absent mint passes for
any invoker; set_admin is authorized iff the stored owner equals the
invoker or the transaction-source identity is present and equals the
owner, so with the transaction source absent set_admin authorizes only
an invoker equal to the owner. -/
theorem c2_auth_characterization (e : Env) (s : State) (A O dst newA : Addr) (a : U64)
    (hA : s.admin = some A) (hO : s.owner = some O) :
    (exOk (mint e s dst a) = true ↔ (A = e.invoker ∨ A = e.txSource.getD A)) ∧
    (exOk (set_admin e s newA) = true ↔
      (O = e.invoker ∨ ∃ x, e.txSource = some x ∧ x = O)) ∧
    (e.txSource = none →
      exOk (mint e s dst a) = true ∧
      (exOk (set_admin e s newA) = true ↔ O = e.invoker)) := by
  have hm : exOk (mint e s dst a) = ((A == e.invoker) || (A == e.txSource.getD A)) := by
    unfold mint
    rw [hA]
    cases h1 : (A == e.invoker) <;> cases h2 : (A == e.txSource.getD A) <;>
      simp [h1, h2, exOk]
  have hs : exOk (set_admin e s newA)
      = ((O == e.invoker) || (e.txSource.map (fun x => x == O)).getD false) := by
    unfold set_admin
    rw [hO]
    cases hc : ((O == e.invoker) || (e.txSource.map (fun x => x == O)).getD false) <;>
      simp [hc, exOk]
  refine ⟨?_, ?_, ?_⟩
  · rw [hm]
    simp [beq_iff_eq]
  · rw [hs]
    cases hts : e.txSource with
    | none => simp [beq_iff_eq]
    | some x => simp [beq_iff_eq]
  · intro hts
    constructor
    · rw [hm, hts]
      simp
    · rw [hs, hts]
      simp [beq_iff_eq]

/-- Counterexample to C2 as stated: with owner stored as 0, the
transaction source absent and invoker 1, set_admin aborts with the
not-authorized panic instead of passing for any invoker. -/
theorem c2_counterexample :
    envOne.txSource = none ∧ envOne.invoker ≠ 0 ∧ sOwned.owner = some 0 ∧
    set_admin envOne sOwned 2 = .error .notOwner :=
  ⟨rfl, by decide, rfl, rfl⟩

/-- Witness for C2 (amended) at a concrete input: admin 0 and owner 0
stored, invoker 1, transaction source absent. -/
theorem c2_witness :
    (sOwned.admin = some 0 ∧ sOwned.owner = some 0) ∧
    ((exOk (mint envOne sOwned 3 5) = true ↔
        ((0 : Nat) = envOne.invoker ∨ (0 : Nat) = envOne.txSource.getD 0)) ∧
     (exOk (set_admin envOne sOwned 2) = true ↔
        ((0 : Nat) = envOne.invoker ∨ ∃ x, envOne.txSource = some x ∧ x = 0)) ∧
     (envOne.txSource = none →
        exOk (mint envOne sOwned 3 5) = true ∧
        (exOk (set_admin envOne sOwned 2) = true ↔ (0 : Nat) = envOne.invoker))) :=
  ⟨⟨rfl, rfl⟩, c2_auth_characterization envOne sOwned 0 0 3 2 5 rfl rfl⟩

end TokenClaims2

section TokenClaims3

open FragileToken

/-- Claim C3 (amended): an authorized mint adds the amount to the
total supply and to the recipient balance modulo 2^64 — at the 64-bit
ceiling the results wrap around rather than clamping at 2^64 - 1. -/
theorem c3_mint_wraps (e : Env) (s : State) (dst : Addr) (a : U64) (A : Addr)
    (hA : s.admin = some A)
    (hauth : A = e.invoker ∨ A = e.txSource.getD A) :
    ∃ s1, mint e s dst a = .ok s1 ∧
      s1.totalSupply = some ((total_supply s + a) % u64Mod) ∧
      balance_of s1 dst = (balance_of s dst + a) % u64Mod := by
  have hc : (!(A == e.invoker) && !(A == e.txSource.getD A)) = false := by
    rcases hauth with h | h
    · rw [h]
      simp
    · rw [← h]
      simp
  refine ⟨write_bal { s with totalSupply := some ((read_u64 s.totalSupply + a) % u64Mod) }
            dst ((read_bal s dst + a) % u64Mod), ?_, ?_, ?_⟩
  · unfold mint
    rw [hA]
    simp only [hc, Bool.false_eq_true, if_false, Except.ok.injEq]
    rfl
  · rfl
  · simp [balance_of, read_bal, write_bal, upd, total_supply]

/-- Counterexample to C3 as stated: with the stored total supply at
2^64 - 1, an authorized mint of 1 produces total supply 0 — it neither
clamps at 2^64 - 1 nor equals the old supply plus 1. -/
theorem c3_counterexample :
    exOk (mint envNone sSupplyMax 7 1) = true ∧
    (committed sSupplyMax (mint envNone sSupplyMax 7 1)).totalSupply = some 0 ∧
    (0 : Nat) ≠ u64Mod - 1 ∧
    (0 : Nat) ≠ (u64Mod - 1) + 1 := by
  refine ⟨?_, ?_, by decide, by decide⟩ <;> rfl

/-- Witness for C3 (amended) at a concrete input: admin 0, absent
transaction source, supply at the ceiling, minting 1 to account 7. -/
theorem c3_witness :
    (sSupplyMax.admin = some (0 : Nat) ∧
      ((0 : Nat) = envNone.invoker ∨ (0 : Nat) = envNone.txSource.getD 0)) ∧
    (∃ s1, mint envNone sSupplyMax 7 1 = .ok s1 ∧
      s1.totalSupply = some ((total_supply sSupplyMax + 1) % u64Mod) ∧
      balance_of s1 7 = (balance_of sSupplyMax 7 + 1) % u64Mod) :=
  ⟨⟨rfl, Or.inr rfl⟩,
   c3_mint_wraps envNone sSupplyMax 7 1 0 rfl (Or.inr rfl)⟩

/-- Claim C5 (amended): with a sufficient sender balance and distinct
sender and recipient, transfer succeeds, decreases the sender balance
by the amount, increases the recipient balance by the amount modulo
2^64 (the unchecked addition wraps at the 64-bit ceiling) and leaves
the total supply unchanged. -/
theorem c5_transfer_moves (e : Env) (s : State) (src dst : Addr) (a : U64)
    (hne : src ≠ dst) (hbal : a ≤ balance_of s src) :
    ∃ s1, (transfer e s src dst a).2 = .ok s1 ∧
      balance_of s1 src = balance_of s src - a ∧
      balance_of s1 dst = (balance_of s dst + a) % u64Mod ∧
      total_supply s1 = total_supply s := by
  have hnlt : ¬ read_bal s src < a := not_lt.mpr hbal
  refine ⟨write_bal (write_bal s src (read_bal s src - a)) dst
            ((read_bal (write_bal s src (read_bal s src - a)) dst + a) % u64Mod),
          ?_, ?_, ?_, rfl⟩
  · unfold transfer
    simp [hnlt]
  · simp [balance_of, read_bal, write_bal, upd, hne, Ne.symm hne]
  · simp [balance_of, read_bal, write_bal, upd, hne, Ne.symm hne]

/-- Counterexample to C5 as stated: with the recipient balance already
at 2^64 - 1 and the sender holding 1, a transfer of 1 succeeds but the
recipient balance wraps to 0 instead of increasing by 1. -/
theorem c5_counterexample :
    (0 : Nat) ≠ 1 ∧
    1 ≤ balance_of sCeiling 0 ∧
    exOk (transfer envNone sCeiling 0 1 1).2 = true ∧
    balance_of (committed sCeiling (transfer envNone sCeiling 0 1 1).2) 1
      ≠ balance_of sCeiling 1 + 1 := by decide

/-- Witness for C5 (amended) at a concrete input: the post-init ledger
with owner 0 holding 1000, transferring 150 to account 3. -/
theorem c5_witness :
    ((0 : Nat) ≠ 3 ∧ 150 ≤ balance_of sInit 0) ∧
    (∃ s1, (transfer envNone sInit 0 3 150).2 = .ok s1 ∧
      balance_of s1 0 = balance_of sInit 0 - 150 ∧
      balance_of s1 3 = (balance_of sInit 3 + 150) % u64Mod ∧
      total_supply s1 = total_supply sInit) :=
  ⟨⟨by decide, by decide⟩,
   c5_transfer_moves envNone sInit 0 3 150 (by decide) (by decide)⟩

end TokenClaims3

section TokenClaims4

open FragileToken

/-- Claim C6: every transfer call publishes the xfer event strictly
before evaluating the balance comparison; when the sender balance is
below the amount the call fails with the insufficient-balance panic,
the committed state (all-or-nothing rollback) is the unchanged
pre-state, and the event publication already sits in the execution
trace of the call. -/
theorem c6_event_before_check (e : Env) (s : State) (src dst : Addr) (a : U64) :
    (transfer e s src dst a).1 =
      [TokAction.publishXfer src dst a, TokAction.balCheck src (read_bal s src) a] ∧
    (∃ i j, i < j ∧
      (transfer e s src dst a).1.get? i = some (TokAction.publishXfer src dst a) ∧
      (transfer e s src dst a).1.get? j = some (TokAction.balCheck src (read_bal s src) a)) ∧
    (read_bal s src < a →
      (transfer e s src dst a).2 = .error .insufficient ∧
      committed s (transfer e s src dst a).2 = s ∧
      TokAction.publishXfer src dst a ∈ (transfer e s src dst a).1) := by
  have htr : (transfer e s src dst a).1 =
      [TokAction.publishXfer src dst a, TokAction.balCheck src (read_bal s src) a] := by
    by_cases h : read_bal s src < a <;> simp [transfer, h]
  refine ⟨htr, ⟨0, 1, by decide, ?_, ?_⟩, ?_⟩
  · rw [htr]
    rfl
  · rw [htr]
    rfl
  · intro h
    refine ⟨?_, ?_, ?_⟩
    · simp [transfer, h]
    · simp [transfer, committed, h]
    · rw [htr]
      simp

/-- Witness for C6 at a concrete input: transferring 1 from the empty
account 0 to account 1 on the empty ledger. -/
theorem c6_witness :
    FragileToken.read_bal FragileToken.emptyState 0 < 1 ∧
    ((transfer envNone emptyState 0 1 1).2 = .error .insufficient ∧
     committed emptyState (transfer envNone emptyState 0 1 1).2 = emptyState ∧
     TokAction.publishXfer 0 1 1 ∈ (transfer envNone emptyState 0 1 1).1) :=
  ⟨by decide, (c6_event_before_check envNone emptyState 0 1 1).2.2 (by decide)⟩

/-- Claim C7: transfer_from with spender equal to owner is exactly
transfer, with no allowance check and no allowance write; with them
distinct it fails with the insufficient-allowance panic when the
allowance is below the amount, and otherwise decrements the allowance
by exactly the amount and then behaves as transfer of the owner. -/
theorem c7_transfer_from_spec (e : Env) (s : State) (spender owner dst : Addr) (a : U64) :
    (spender = owner →
      transfer_from e s spender owner dst a = transfer e s owner dst a ∧
      (committed s (transfer_from e s spender owner dst a).2).allowances = s.allowances) ∧
    (spender ≠ owner → allowance s owner spender < a →
      transfer_from e s spender owner dst a = ([], .error .noAllow)) ∧
    (spender ≠ owner → a ≤ allowance s owner spender →
      transfer_from e s spender owner dst a =
        transfer e (write_allow s owner spender (allowance s owner spender - a)) owner dst a ∧
      allowance (write_allow s owner spender (allowance s owner spender - a)) owner spender =
        allowance s owner spender - a) := by
  refine ⟨?_, ?_, ?_⟩
  · intro h
    subst h
    constructor
    · simp [transfer_from]
    · simp only [transfer_from, ne_eq, not_true_eq_false, if_false, ite_false]
      exact transfer_allowances e s spender dst a
  · intro h hlt
    simp [transfer_from, h, allowance, read_allow] at hlt ⊢
    simp [hlt]
  · intro h hge
    have hnlt : ¬ read_allow s owner spender < a :=
      not_lt.mpr hge
    constructor
    · simp [transfer_from, h, allowance, hnlt]
    · exact read_allow_write_allow s owner spender (allowance s owner spender - a)

/-- Witness for C7: the end-to-end scenario init(owner 0, admin 1,
supply 1000), third-party approve(0, 2, 200), then
transfer_from(spender 2, owner 0, recipient 3, 150), yielding balance
850 for the owner, 150 for the recipient and allowance 50. -/
theorem c7_witness :
    ((2 : Nat) ≠ 0 ∧ 150 ≤ allowance sApproved 0 2) ∧
    transfer_from envNone sApproved 2 0 3 150 =
      transfer envNone (write_allow sApproved 0 2 (allowance sApproved 0 2 - 150)) 0 3 150 ∧
    exOk (transfer_from envNone sApproved 2 0 3 150).2 = true ∧
    balance_of (committed sApproved (transfer_from envNone sApproved 2 0 3 150).2) 0 = 850 ∧
    balance_of (committed sApproved (transfer_from envNone sApproved 2 0 3 150).2) 3 = 150 ∧
    allowance (committed sApproved (transfer_from envNone sApproved 2 0 3 150).2) 0 2 = 50 :=
  ⟨⟨by decide, by decide⟩,
   ((c7_transfer_from_spec envNone sApproved 2 0 3 150).2.2 (by decide) (by decide)).1,
   by decide, by decide, by decide, by decide⟩

end TokenClaims4

section VaultClaims

/-- Claim C8: a successful withdraw of a positive amount performs the
token CPI out of vault custody, signed with the vault authority,
strictly before the write that decrements total_deposits, and the
decrement subtracts the amount with saturation at zero. -/
theorem c8_withdraw_cpi_before_decrement (s : Vault.VaultState) (mk : Vault.Pubkey)
    (a : Vault.U64) (hmk : s.mint = mk) (ha : 0 < a) :
    Vault.withdraw s mk true a =
      ([Vault.VAction.cpiTransfer .vaultToken .userToken a true,
        Vault.VAction.writeDeposits (s.total_deposits - a)],
       .ok { s with total_deposits := s.total_deposits - a }) ∧
    (∃ i j, i < j ∧
      (Vault.withdraw s mk true a).1.get? i =
        some (Vault.VAction.cpiTransfer .vaultToken .userToken a true) ∧
      (Vault.withdraw s mk true a).1.get? j =
        some (Vault.VAction.writeDeposits (s.total_deposits - a))) ∧
    (committed s (Vault.withdraw s mk true a).2).total_deposits = s.total_deposits - a ∧
    (s.total_deposits ≤ a →
      (committed s (Vault.withdraw s mk true a).2).total_deposits = 0) := by
  have hz : ¬ a = 0 := Nat.pos_iff_ne_zero.mp ha
  have hw : Vault.withdraw s mk true a =
      ([Vault.VAction.cpiTransfer .vaultToken .userToken a true,
        Vault.VAction.writeDeposits (s.total_deposits - a)],
       .ok { s with total_deposits := s.total_deposits - a }) := by
    simp [Vault.withdraw, hmk, hz]
  refine ⟨hw, ⟨0, 1, by decide, ?_, ?_⟩, ?_, ?_⟩
  · rw [hw]
    rfl
  · rw [hw]
    rfl
  · rw [hw]
    rfl
  · intro hle
    rw [hw]
    simpa [committed] using Nat.sub_eq_zero_of_le hle

/-- Witness for C8 at a concrete input: a funded vault (100 custodied,
stored mint 0) withdrawing 30. -/
theorem c8_witness :
    (vFunded.mint = 0 ∧ 0 < 30) ∧
    Vault.withdraw vFunded 0 true 30 =
      ([Vault.VAction.cpiTransfer .vaultToken .userToken 30 true,
        Vault.VAction.writeDeposits (vFunded.total_deposits - 30)],
       .ok { vFunded with total_deposits := vFunded.total_deposits - 30 }) ∧
    (committed vFunded (Vault.withdraw vFunded 0 true 30).2).total_deposits
      = vFunded.total_deposits - 30 :=
  ⟨⟨rfl, by decide⟩,
   (c8_withdraw_cpi_before_decrement vFunded 0 30 rfl (by decide)).1,
   (c8_withdraw_cpi_before_decrement vFunded 0 30 rfl (by decide)).2.2.1⟩

/-- Claim C9: deposit and withdraw called with amount 0 (accounts
passing their constraints) fail with the BadAmount error, perform no
token CPI (the action trace is empty) and leave every field of the
committed vault state unchanged. -/
theorem c9_zero_amount_rejected (s : Vault.VaultState) (mk vt : Vault.Pubkey)
    (cpiOk : Bool) (hs : s.mint = mk) (hvt : vt = mk) :
    Vault.deposit s mk vt cpiOk 0 = ([], .error .badAmount) ∧
    Vault.withdraw s mk cpiOk 0 = ([], .error .badAmount) ∧
    committed s (Vault.deposit s mk vt cpiOk 0).2 = s ∧
    committed s (Vault.withdraw s mk cpiOk 0).2 = s := by
  have hd : Vault.deposit s mk vt cpiOk 0 = ([], .error .badAmount) := by
    simp [Vault.deposit, hs, hvt]
  have hw : Vault.withdraw s mk cpiOk 0 = ([], .error .badAmount) := by
    simp [Vault.withdraw, hs]
  refine ⟨hd, hw, ?_, ?_⟩
  · rw [hd]
    rfl
  · rw [hw]
    rfl

/-- Witness for C9 at a concrete input: the funded vault with matching
mint keys and amount 0. -/
theorem c9_witness :
    (vFunded.mint = 0 ∧ (0 : Vault.Pubkey) = 0) ∧
    Vault.deposit vFunded 0 0 true 0 = ([], .error .badAmount) ∧
    Vault.withdraw vFunded 0 true 0 = ([], .error .badAmount) ∧
    committed vFunded (Vault.deposit vFunded 0 0 true 0).2 = vFunded ∧
    committed vFunded (Vault.withdraw vFunded 0 true 0).2 = vFunded :=
  ⟨⟨rfl, rfl⟩, c9_zero_amount_rejected vFunded 0 0 true rfl rfl⟩

/-- Claim C10: the initialize handler writes exactly the admin and bump
fields, so on the freshly zeroed account the stored mint keeps its
all-zero default; no vault instruction other than the total_deposits
updates of deposit and withdraw and the admin update of set_admin
writes any field, so the mint field is never written; yet deposit and
withdraw require the stored mint to equal the supplied mint account. -/
theorem c10_mint_never_written :
    (∀ (s : Vault.VaultState) (c b : Vault.Pubkey),
      Vault.initVault s c b = { s with admin := c, bump := b }) ∧
    (∀ c b, (Vault.initVault Vault.initState c b).mint = 0 ∧
      (Vault.initVault Vault.initState c b).total_deposits = 0) ∧
    (∀ s mk vt cpiOk a,
      (committed s (Vault.deposit s mk vt cpiOk a).2).mint = s.mint ∧
      (committed s (Vault.deposit s mk vt cpiOk a).2).admin = s.admin ∧
      (committed s (Vault.deposit s mk vt cpiOk a).2).bump = s.bump) ∧
    (∀ s mk cpiOk a,
      (committed s (Vault.withdraw s mk cpiOk a).2).mint = s.mint ∧
      (committed s (Vault.withdraw s mk cpiOk a).2).admin = s.admin ∧
      (committed s (Vault.withdraw s mk cpiOk a).2).bump = s.bump) ∧
    (∀ s p na,
      (committed s (Vault.set_admin s p na)).mint = s.mint ∧
      (committed s (Vault.set_admin s p na)).total_deposits = s.total_deposits ∧
      (committed s (Vault.set_admin s p na)).bump = s.bump) ∧
    (∀ s d, Vault.exec s d = .ok s) ∧
    (∀ s mk vt cpiOk a, s.mint ≠ mk →
      exOk (Vault.deposit s mk vt cpiOk a).2 = false) ∧
    (∀ s mk cpiOk a, s.mint ≠ mk →
      (Vault.withdraw s mk cpiOk a).2 = .error .constraintHasOne) := by
  refine ⟨fun s c b => rfl, fun c b => ⟨rfl, rfl⟩, ?_, ?_, ?_, fun s d => rfl, ?_, ?_⟩
  · intro s mk vt cpiOk a
    unfold Vault.deposit
    split_ifs <;> simp [committed]
  · intro s mk cpiOk a
    unfold Vault.withdraw
    split_ifs <;> simp [committed]
  · intro s p na
    unfold Vault.set_admin
    split_ifs <;> simp [committed]
  · intro s mk vt cpiOk a h
    unfold Vault.deposit
    by_cases hvt : vt ≠ mk <;> simp [hvt, h, exOk]
  · intro s mk cpiOk a h
    simp [Vault.withdraw, h]

/-- Witness for C10 at concrete inputs: after the initialize handler
on a fresh account the mint is 0, and with stored mint 1 against
supplied mint 0 both deposit and withdraw are rejected. -/
theorem c10_witness :
    ((vWrongMint.mint ≠ 0) ∧ (Vault.initVault Vault.initState 5 7).mint = 0) ∧
    exOk (Vault.deposit vWrongMint 0 0 true 5).2 = false ∧
    (Vault.withdraw vWrongMint 0 true 5).2 = .error .constraintHasOne :=
  ⟨⟨by decide, (c10_mint_never_written.2.1 5 7).1⟩,
   c10_mint_never_written.2.2.2.2.2.2.1 vWrongMint 0 0 true 5 (by decide),
   c10_mint_never_written.2.2.2.2.2.2.2 vWrongMint 0 true 5 (by decide)⟩

end VaultClaims
